import Mathlib

/-!
Verification of the WeedSeeker spectral-index calibration and classification
engine (WeedSeeker-UpdatedLoom/WeedSeeker-Main/WeedSeeker-Main.ino).

The sketch reads 18 band intensities (uint16 counts) from the AS7265x triad,
computes the NDVIB vegetation index, calibrates a decision threshold from 16
baseline samples, and then classifies every subsequent sample against that
threshold, driving the 12V rail as the actuator.

Embedding choices: band counts are naturals; the C int arithmetic on band
sums (which cannot overflow a 32-bit int, since each band is below 65536)
is embedded in the integers; the float quotients are embedded in the
rationals; each unguarded float division is modelled as an Option-valued
checked division, returning none exactly when the source would divide by
zero.
-/

open BigOperators

/-- One spectral sample: the 18 raw band intensities read from the AS7265x
triad, in the order the source reads them (lines 91-108 and 182-199). Each
is a uint16 count, embedded as a natural number. -/
structure SpectralSample where
  a : ℕ
  b : ℕ
  c : ℕ
  d : ℕ
  e : ℕ
  f : ℕ
  g : ℕ
  h : ℕ
  i : ℕ
  j : ℕ
  k : ℕ
  l : ℕ
  r : ℕ
  s : ℕ
  t : ℕ
  u : ℕ
  v : ℕ
  w : ℕ
deriving DecidableEq

/-- Numerator of the NDVIB index as computed inside calibrate, line 114:
((u + v + w + e + f + g) - 2*(b + c + d)). -/
def ndCal (x : SpectralSample) : ℤ :=
  ((x.u : ℤ) + x.v + x.w + x.e + x.f + x.g) - 2 * ((x.b : ℤ) + x.c + x.d)

/-- Denominator of the NDVIB index as computed inside calibrate, line 115:
((u + v + w + e + f + g) + 2*(b + c + d)). -/
def vibCal (x : SpectralSample) : ℤ :=
  ((x.u : ℤ) + x.v + x.w + x.e + x.f + x.g) + 2 * ((x.b : ℤ) + x.c + x.d)

/-- The per-sample NDVIB value stored into the calibration array, line 116:
nd/vib. -/
def ndvibCal (x : SpectralSample) : ℚ :=
  (ndCal x : ℚ) / (vibCal x : ℚ)

/-- Numerator of the NDVIB index as computed inside the monitoring loop,
line 226. -/
def ndLoop (x : SpectralSample) : ℤ :=
  ((x.u : ℤ) + x.v + x.w + x.e + x.f + x.g) - 2 * ((x.b : ℤ) + x.c + x.d)

/-- Denominator of the NDVIB index as computed inside the monitoring loop,
line 227. -/
def vibLoop (x : SpectralSample) : ℤ :=
  ((x.u : ℤ) + x.v + x.w + x.e + x.f + x.g) + 2 * ((x.b : ℤ) + x.c + x.d)

/-- The NDVIB value of the monitoring loop, line 228: nd/vib. -/
def ndvibLoop (x : SpectralSample) : ℚ :=
  (ndLoop x : ℚ) / (vibLoop x : ℚ)

/-- The binary classification outcome of one monitoring cycle. -/
inductive Decision where
  | Target
  | NoTarget
deriving DecidableEq

/-- The decision rule of the monitoring loop, line 271: the sample is a
target exactly when threshold < ndvib. -/
def classifyDecision (threshold index : ℚ) : Decision :=
  if threshold < index then Decision.Target else Decision.NoTarget

/-- The actuator write performed from the decision, lines 278 and 286: the
12V rail is driven HIGH on Target and LOW on NoTarget. -/
def actuatorOf : Decision → Bool
  | Decision.Target => true
  | Decision.NoTarget => false

/-- The per-cycle classification outcome: the computed index, the decision,
and the actuator level written this cycle. -/
structure ClassificationRecord where
  index : ℚ
  decision : Decision
  actuator : Bool
deriving DecidableEq

/-- One classification of a sample against a threshold, as the monitoring
loop performs it (lines 226-228 and 271-287). -/
def classify (threshold : ℚ) (x : SpectralSample) : ClassificationRecord :=
  { index := ndvibLoop x
    decision := classifyDecision threshold (ndvibLoop x)
    actuator := actuatorOf (classifyDecision threshold (ndvibLoop x)) }

/-- The threshold offset, line 44: 0.015. -/
def offset : ℚ := 3 / 200

/-- The calibration function, lines 78-133, on the 16 acquired samples.
The source accumulates the 16 stored NDVIB values into the pre-existing
global threshold (line 124), then divides by 16 and adds the offset
(line 126). The entry value of the global is passed explicitly as t0. -/
def calibrate (t0 : ℚ) (samples : Fin 16 → SpectralSample) : ℚ :=
  ((List.ofFn fun z => ndvibCal (samples z)).foldl (fun acc x => acc + x) t0) / 16
    + offset

/-- Checked variant of the per-sample NDVIB value: the source divides with
no guard on line 116, so a zero denominator is modelled as none. -/
def ndvibCalChecked (x : SpectralSample) : Option ℚ :=
  if vibCal x = 0 then none else some (ndvibCal x)

/-- Collect a list of checked divisions, failing if any one failed. -/
def sequenceOptions : List (Option ℚ) → Option (List ℚ)
  | [] => some []
  | none :: _ => none
  | some x :: rest => (sequenceOptions rest).map fun l => x :: l

/-- Checked variant of calibrate: the result is a defined scalar exactly
when all 16 per-sample divisions were defined. -/
def calibrateChecked (t0 : ℚ) (samples : Fin 16 → SpectralSample) : Option ℚ :=
  (sequenceOptions (List.ofFn fun z => ndvibCalChecked (samples z))).map
    fun inds => (inds.foldl (fun acc x => acc + x) t0) / 16 + offset

/-- Sum of all 18 band values, line 202. -/
def total (x : SpectralSample) : ℕ :=
  x.a + x.b + x.c + x.d + x.e + x.f + x.g + x.h + x.i + x.j + x.k + x.l +
    x.r + x.s + x.t + x.u + x.v + x.w

/-- One normalized band fraction: the source divides by total with no
guard (lines 207-221), so a zero total is modelled as none. -/
def bandFrac (count tot : ℕ) : Option ℚ :=
  if tot = 0 then none else some ((count : ℚ) / (tot : ℚ))

/-- Normalized band fraction a_w, line 207. -/
def a_w (x : SpectralSample) : Option ℚ := bandFrac x.a (total x)

/-- Normalized band fraction b_w, line 208. -/
def b_w (x : SpectralSample) : Option ℚ := bandFrac x.b (total x)

/-- Normalized band fraction c_w, line 209. -/
def c_w (x : SpectralSample) : Option ℚ := bandFrac x.c (total x)

/-- Normalized band fraction d_w, line 210. -/
def d_w (x : SpectralSample) : Option ℚ := bandFrac x.d (total x)

/-- Normalized band fraction e_w, line 211: the source divides band b
here, not band e. -/
def e_w (x : SpectralSample) : Option ℚ := bandFrac x.b (total x)

/-- Normalized band fraction f_w, line 212: the source divides band b
here, not band f. -/
def f_w (x : SpectralSample) : Option ℚ := bandFrac x.b (total x)

/-- Normalized band fraction g_w, line 213. -/
def g_w (x : SpectralSample) : Option ℚ := bandFrac x.g (total x)

/-- Normalized band fraction j_w, line 214. -/
def j_w (x : SpectralSample) : Option ℚ := bandFrac x.j (total x)

/-- Normalized band fraction k_w, line 215. -/
def k_w (x : SpectralSample) : Option ℚ := bandFrac x.k (total x)

/-- Normalized band fraction r_w, line 216. -/
def r_w (x : SpectralSample) : Option ℚ := bandFrac x.r (total x)

/-- Normalized band fraction s_w, line 217. -/
def s_w (x : SpectralSample) : Option ℚ := bandFrac x.s (total x)

/-- Normalized band fraction t_w, line 218. -/
def t_w (x : SpectralSample) : Option ℚ := bandFrac x.t (total x)

/-- Normalized band fraction u_w, line 219. -/
def u_w (x : SpectralSample) : Option ℚ := bandFrac x.u (total x)

/-- Normalized band fraction v_w, line 220. -/
def v_w (x : SpectralSample) : Option ℚ := bandFrac x.v (total x)

/-- Normalized band fraction w_w, line 221. -/
def w_w (x : SpectralSample) : Option ℚ := bandFrac x.w (total x)

/-- The control phase of the device. -/
inductive Phase where
  | Init
  | Calibrating
  | Monitoring
deriving DecidableEq

/-- The state the control loop owns: the current phase, the global
threshold (line 42) and the 12V rail level. -/
structure DeviceState where
  phase : Phase
  threshold : ℚ
  actuator : Bool
deriving DecidableEq

/-- The state after setup: threshold initialized to 0 (line 42) and the
12V rail driven LOW (line 58). -/
def boot : DeviceState := { phase := Phase.Init, threshold := 0, actuator := false }

/-- The one calibration pass at the top of loop, line 163: threshold is
updated from its entry value (line 124-126) and the completion pulse
leaves the rail LOW again (line 132). -/
def calibrationStep (σ : DeviceState) (samples : Fin 16 → SpectralSample) : DeviceState :=
  { phase := Phase.Monitoring
    threshold := calibrate σ.threshold samples
    actuator := false }

/-- One monitoring cycle of the while(1) loop, lines 165-292: the
threshold is only read, and the rail is written fresh from the decision. -/
def monitorStep (σ : DeviceState) (x : SpectralSample) : DeviceState :=
  { phase := Phase.Monitoring
    threshold := σ.threshold
    actuator := actuatorOf (classifyDecision σ.threshold (ndvibLoop x)) }

/-- The whole execution: calibrate once from boot, then monitor forever
on the given sample stream. -/
def run (cal : Fin 16 → SpectralSample) (stream : ℕ → SpectralSample) : ℕ → DeviceState
  | 0 => calibrationStep boot cal
  | n + 1 => monitorStep (run cal stream n) (stream n)

/-- The concrete end-to-end sample of the scenario: u=v=w=300, e=f=g=100,
b=c=d=50, all other bands zero. -/
def exScenario : SpectralSample :=
  { a := 0, b := 50, c := 50, d := 50, e := 100, f := 100, g := 100,
    h := 0, i := 0, j := 0, k := 0, l := 0, r := 0, s := 0, t := 0,
    u := 300, v := 300, w := 300 }

/-- A concrete sample whose NDVIB value is exactly one half: u=6, b=1,
all other bands zero, so nd = 4 and vib = 8. -/
def exHalf : SpectralSample :=
  { a := 0, b := 1, c := 0, d := 0, e := 0, f := 0, g := 0,
    h := 0, i := 0, j := 0, k := 0, l := 0, r := 0, s := 0, t := 0,
    u := 6, v := 0, w := 0 }

/-- A concrete sample with pairwise distinct bands b=2, e=1, f=3 and a
non-zero total, exhibiting the e_w/f_w normalization of the source. -/
def exBug : SpectralSample :=
  { a := 0, b := 2, c := 0, d := 0, e := 1, f := 3, g := 0,
    h := 0, i := 0, j := 0, k := 0, l := 0, r := 0, s := 0, t := 0,
    u := 0, v := 0, w := 0 }

theorem foldl_add_eq_add_sum (l : List ℚ) (t0 : ℚ) :
    l.foldl (fun acc x => acc + x) t0 = t0 + l.sum := by
  induction l generalizing t0 with
  | nil => simp
  | cons hd tl ih => simp [List.foldl_cons, ih, add_assoc]

/-- C1: the NDVIB index of the monitoring loop equals
(u+v+w+e+f+g - 2(b+c+d)) / (u+v+w+e+f+g + 2(b+c+d)); for the sample with
u=v=w=300, e=f=g=100, b=c=d=50 it equals 0.6, and against the threshold
0.515 the decision is Target and the actuator is driven active. -/
theorem ndvib_formula_and_scenario :
    (∀ x : SpectralSample,
      ndvibLoop x =
        (((x.u : ℚ) + x.v + x.w + x.e + x.f + x.g) - 2 * ((x.b : ℚ) + x.c + x.d)) /
        (((x.u : ℚ) + x.v + x.w + x.e + x.f + x.g) + 2 * ((x.b : ℚ) + x.c + x.d))) ∧
    (∀ x : SpectralSample,
      x.u = 300 → x.v = 300 → x.w = 300 → x.e = 100 → x.f = 100 → x.g = 100 →
      x.b = 50 → x.c = 50 → x.d = 50 →
      ndvibLoop x = 3 / 5 ∧
      classifyDecision (103 / 200) (ndvibLoop x) = Decision.Target ∧
      (classify (103 / 200) x).actuator = true) := by
  constructor
  · intro x
    simp only [ndvibLoop, ndLoop, vibLoop]
    push_cast
    ring_nf
  · intro x hu hv hw he hf hg hb hc hd
    have hx : ndvibLoop x = 3 / 5 := by
      simp only [ndvibLoop, ndLoop, vibLoop, hu, hv, hw, he, hf, hg, hb, hc, hd]
      norm_num
    refine ⟨hx, ?_, ?_⟩
    · rw [hx]
      simp [classifyDecision]
      norm_num
    · rw [classify]
      simp only [hx]
      simp [classifyDecision, actuatorOf]
      norm_num

/-- Witness for the scenario half of the C1 theorem, at the concrete
sample. -/
theorem ndvib_scenario_witness :
    ndvibLoop exScenario = 3 / 5 ∧
    classifyDecision (103 / 200) (ndvibLoop exScenario) = Decision.Target ∧
    (classify (103 / 200) exScenario).actuator = true :=
  ndvib_formula_and_scenario.2 exScenario rfl rfl rfl rfl rfl rfl rfl rfl rfl

theorem isSome_option_map {α β : Type} (f : α → β) (o : Option α) :
    (o.map f).isSome = o.isSome := by
  cases o <;> rfl

theorem sequenceOptions_isSome (l : List (Option ℚ)) :
    (sequenceOptions l).isSome ↔ ∀ o ∈ l, o.isSome := by
  induction l with
  | nil => simp [sequenceOptions]
  | cons hd tl ih =>
    cases hd with
    | none => simp [sequenceOptions]
    | some x => simp [sequenceOptions, isSome_option_map, ih]

theorem sequenceOptions_map_some (l : List ℚ) :
    sequenceOptions (l.map some) = some l := by
  induction l with
  | nil => rfl
  | cons hd tl ih => simp [sequenceOptions, ih]

theorem bandFrac_isSome (count tot : ℕ) : (bandFrac count tot).isSome ↔ tot ≠ 0 := by
  rw [bandFrac]
  split <;> simp_all

/-- C2: calibrate consumes exactly 16 samples, takes the NDVIB index of
each, and (from the boot threshold 0) produces the mean of the 16 indices
plus the offset 0.015; when all 16 indices are exactly one half the
threshold comes out 0.515. -/
theorem calibrate_mean_plus_offset :
    (∀ samples : Fin 16 → SpectralSample,
      (calibrationStep boot samples).threshold =
        (∑ z : Fin 16, ndvibCal (samples z)) / 16 + offset) ∧
    (∀ samples : Fin 16 → SpectralSample,
      (∀ z : Fin 16, ndvibCal (samples z) = 1 / 2) →
      (calibrationStep boot samples).threshold = 103 / 200) := by
  have base : ∀ samples : Fin 16 → SpectralSample,
      (calibrationStep boot samples).threshold =
        (∑ z : Fin 16, ndvibCal (samples z)) / 16 + offset := by
    intro samples
    show calibrate 0 samples = _
    rw [calibrate, foldl_add_eq_add_sum, List.sum_ofFn, zero_add]
  refine ⟨base, ?_⟩
  intro samples hall
  rw [base samples]
  have hsum : (∑ z : Fin 16, ndvibCal (samples z)) = 8 := by
    simp [hall]
    norm_num
  rw [hsum, offset]
  norm_num

theorem ndvibCal_exHalf : ndvibCal exHalf = 1 / 2 := by
  norm_num [ndvibCal, ndCal, vibCal, exHalf]

/-- Witness for C2 at the constant batch of samples with index one half. -/
theorem calibrate_mean_plus_offset_witness :
    (calibrationStep boot fun _ => exHalf).threshold = 103 / 200 :=
  calibrate_mean_plus_offset.2 (fun _ => exHalf) (fun _ => ndvibCal_exHalf)

/-- C3: the decision is Target exactly when the index strictly exceeds the
threshold, and a sample whose index equals the threshold classifies as
NoTarget. -/
theorem decision_strict_inequality :
    ∀ (t : ℚ) (x : SpectralSample),
      (classifyDecision t (ndvibLoop x) = Decision.Target ↔ t < ndvibLoop x) ∧
      classifyDecision (ndvibLoop x) (ndvibLoop x) = Decision.NoTarget := by
  intro t x
  constructor
  · rw [classifyDecision]
    split <;> simp_all
  · simp [classifyDecision]

/-- C4 evaluation: in the source, bands e and f of a sample are distinct,
yet the normalized values e_w and f_w coincide, and e_w differs from
e divided by total (the source normalizes both e_w and f_w from band b). -/
theorem normalized_copy_paste_eval :
    exBug.e ≠ exBug.f ∧
    e_w exBug = f_w exBug ∧
    e_w exBug ≠ some ((exBug.e : ℚ) / (total exBug : ℚ)) ∧
    f_w exBug ≠ some ((exBug.f : ℚ) / (total exBug : ℚ)) := by
  refine ⟨by decide, rfl, ?_, ?_⟩ <;>
    norm_num [e_w, f_w, bandFrac, exBug, total]

/-- C5: the checked calibration returns a defined scalar exactly when all
16 per-sample denominators are non-zero, and under that precondition the
division-by-zero branch is unreachable and the unchecked result is
produced. -/
theorem calibrate_denominator_guard :
    ∀ (t0 : ℚ) (samples : Fin 16 → SpectralSample),
      ((calibrateChecked t0 samples).isSome ↔ ∀ z : Fin 16, vibCal (samples z) ≠ 0) ∧
      ((∀ z : Fin 16, vibCal (samples z) ≠ 0) →
        calibrateChecked t0 samples = some (calibrate t0 samples)) := by
  intro t0 samples
  constructor
  · rw [calibrateChecked, isSome_option_map, sequenceOptions_isSome]
    constructor
    · intro hall z hz
      have hmem : (none : Option ℚ) ∈ List.ofFn fun i => ndvibCalChecked (samples i) := by
        rw [List.mem_ofFn]
        exact ⟨z, by simp [ndvibCalChecked, hz]⟩
      have := hall none hmem
      simp at this
    · intro hall o ho
      rw [List.mem_ofFn] at ho
      obtain ⟨z, rfl⟩ := ho
      simp [ndvibCalChecked, hall z]
  · intro hall
    have key : (List.ofFn fun z => ndvibCalChecked (samples z)) =
        (List.ofFn fun z => ndvibCal (samples z)).map some := by
      rw [List.map_ofFn]
      refine congrArg List.ofFn (funext fun z => ?_)
      simp [ndvibCalChecked, hall z, Function.comp]
    rw [calibrateChecked, key, sequenceOptions_map_some]
    rfl

theorem vibCal_exScenario_ne_zero : vibCal exScenario ≠ 0 := by
  norm_num [vibCal, exScenario]

/-- Witness for C5 at a constant batch of scenario samples, whose
denominator is 1500. -/
theorem calibrate_denominator_guard_witness :
    calibrateChecked 0 (fun _ => exScenario) = some (calibrate 0 fun _ => exScenario) :=
  (calibrate_denominator_guard 0 fun _ => exScenario).2 (fun _ => vibCal_exScenario_ne_zero)

/-- C6: total is the sum of all 18 band values, and every normalized
band fraction is defined exactly when total is non-zero. -/
theorem total_and_normalized_guard :
    ∀ x : SpectralSample,
      total x = x.a + x.b + x.c + x.d + x.e + x.f + x.g + x.h + x.i + x.j +
        x.k + x.l + x.r + x.s + x.t + x.u + x.v + x.w ∧
      (((a_w x).isSome ∧ (b_w x).isSome ∧ (c_w x).isSome ∧ (d_w x).isSome ∧
        (e_w x).isSome ∧ (f_w x).isSome ∧ (g_w x).isSome ∧ (j_w x).isSome ∧
        (k_w x).isSome ∧ (r_w x).isSome ∧ (s_w x).isSome ∧ (t_w x).isSome ∧
        (u_w x).isSome ∧ (v_w x).isSome ∧ (w_w x).isSome) ↔ total x ≠ 0) := by
  intro x
  refine ⟨rfl, ?_⟩
  simp [a_w, b_w, c_w, d_w, e_w, f_w, g_w, j_w, k_w, r_w, s_w, t_w,
    u_w, v_w, w_w, bandFrac_isSome]

/-- C7: the NDVIB computation of the calibration pass and the NDVIB
computation of the monitoring loop are the same function of the same
band set. -/
theorem ndvib_cal_eq_ndvib_loop :
    ∀ x : SpectralSample, ndvibCal x = ndvibLoop x := fun _ => rfl

/-- C8: in every reachable state of the execution the threshold holds the
one value calibration computed from the boot threshold 0, the phase is
MONITORING from the first step on, and no state ever moves back to
CALIBRATING. -/
theorem threshold_immutable_after_calibration :
    ∀ (cal : Fin 16 → SpectralSample) (stream : ℕ → SpectralSample) (n : ℕ),
      (run cal stream n).threshold = calibrate 0 cal ∧
      (run cal stream n).phase = Phase.Monitoring ∧
      (run cal stream n).phase ≠ Phase.Calibrating := by
  intro cal stream n
  induction n with
  | zero => exact ⟨rfl, rfl, fun h => Phase.noConfusion h⟩
  | succ n ih => exact ⟨ih.1, rfl, fun h => Phase.noConfusion h⟩

/-- C9: a monitoring cycle is a pure function of the sample and the
threshold: the previous phase and actuator level do not affect the
resulting state, and the actuator is written fresh every cycle from the
decision on the current index. -/
theorem monitor_step_pure :
    ∀ (t : ℚ) (p1 p2 : Phase) (b1 b2 : Bool) (x : SpectralSample),
      monitorStep { phase := p1, threshold := t, actuator := b1 } x =
        monitorStep { phase := p2, threshold := t, actuator := b2 } x ∧
      (monitorStep { phase := p1, threshold := t, actuator := b1 } x).actuator =
        (classify t x).actuator ∧
      (classify t x).decision = classifyDecision t (ndvibLoop x) := by
  intro t p1 p2 b1 b2 x
  exact ⟨rfl, rfl, rfl⟩

/-- C10: calibrate folds the entry value of the global threshold into the
result, (t0 + sum of the 16 indices)/16 + offset, and that equals the
mean-plus-offset of the batch exactly when the entry value is zero. -/
theorem calibrate_accumulates_entry_threshold :
    ∀ (t0 : ℚ) (samples : Fin 16 → SpectralSample),
      calibrate t0 samples = (t0 + ∑ z : Fin 16, ndvibCal (samples z)) / 16 + offset ∧
      (calibrate t0 samples = (∑ z : Fin 16, ndvibCal (samples z)) / 16 + offset ↔
        t0 = 0) := by
  intro t0 samples
  have base : calibrate t0 samples =
      (t0 + ∑ z : Fin 16, ndvibCal (samples z)) / 16 + offset := by
    rw [calibrate, foldl_add_eq_add_sum, List.sum_ofFn]
  refine ⟨base, ?_⟩
  rw [base, add_left_inj]
  constructor
  · intro h
    have h2 : t0 + ∑ z : Fin 16, ndvibCal (samples z) =
        ∑ z : Fin 16, ndvibCal (samples z) := by
      field_simp at h
      linarith
    linarith
  · rintro rfl
    rw [zero_add]
